import Mathlib

/-!
# tvslogparser: the session classifier of `parser/parser.go`

A shallow embedding of `parserState.NewActionFromCSVRecord` and `ParseTVSLog`.

* Go strings are Lean `String`s; the three `strings` predicates the classifier
  uses are defined on the character lists.  All patterns are ASCII, so on
  well-formed UTF-8 text the byte-wise Go predicates and the character-wise
  ones below agree.
* Package `action` is not part of the embedded source.  Its `Action` values are
  modelled from the specification's data model, and its nine constructors are
  a parameter (`Constructors`) of every definition that calls them.
* `encoding/csv` is an external collaborator: a reader is the finite list of
  the outcomes of its successive `Read` calls, and a `Read` on the exhausted
  list yields `io.EOF`.  `csvRead` gives the outcomes the reader made by
  `csv.NewReader` produces for the records of an input: its field-count check
  turns a record whose field count differs from the heading line's into a
  read failure.
* `log.Printf` is modelled by appending to a list of diagnostics.
-/

namespace TVSLogParser

/-! ## Go `strings` predicates -/

/-- Go `strings.HasPrefix(s, p)`: `s` begins with `p`. -/
def startsWith (s p : String) : Bool :=
  p.data.isPrefixOf s.data

/-- Go `strings.HasSuffix(s, p)`: `s` ends with `p`. -/
def endsWith (s p : String) : Bool :=
  p.data.isSuffixOf s.data

/-- Some suffix of `s` begins with `sub` (the search loop of `strings.Index`). -/
def infixOfChars (sub : List Char) : List Char → Bool
  | [] => sub.isPrefixOf []
  | c :: cs => sub.isPrefixOf (c :: cs) || infixOfChars sub cs

/-- Go `strings.Contains(s, sub)`: `sub` occurs somewhere within `s`. -/
def containsStr (s sub : String) : Bool :=
  infixOfChars sub.data s.data

/-! ## Package `action` (modelled) -/

/-- Modelled from the spec: the type `action.Action` of package `action`, which
is not among the embedded sources.  The specification's data model lists a closed
set of nine tagged variants; the three whose payload the parser reads back
(`PilotName`, `ShipType`, `Level`) carry that payload, the context-dependent
ones carry the context values, and the rest of a variant's payload is the list
`fields`. -/
inductive Action where
  | Added (pilotName : String)
  | SelectShip (shipType : String)
  | Pickup (fields : List String)
  | Hyper (fields : List String)
  | Attack (pilotName shipType : String) (shipLevel : Int) (fields : List String)
  | LevelUp (level : Int)
  | Scrap (fields : List String)
  | SelfRepair (fields : List String)
  | Repair (pilotName : String) (shipLevel : Int) (fields : List String)
  deriving DecidableEq, Repr

/-- Modelled from the spec: the tags `action.ActionTypeAdded`, ... of package
`action`, one per variant. -/
inductive ActionType where
  | Added | SelectShip | Pickup | Hyper | Attack | LevelUp | Scrap | SelfRepair | Repair
  deriving DecidableEq, Repr

/-- Modelled from the spec: the method `ActionType()` of `action.Action`
("every variant exposes its tag"). -/
def Action.ActionType : Action → ActionType
  | .Added _ => .Added
  | .SelectShip _ => .SelectShip
  | .Pickup _ => .Pickup
  | .Hyper _ => .Hyper
  | .Attack _ _ _ _ => .Attack
  | .LevelUp _ => .LevelUp
  | .Scrap _ => .Scrap
  | .SelfRepair _ => .SelfRepair
  | .Repair _ _ _ => .Repair

/-- A Go result pair `(action.Action, error)`: either component may be `nil`.
The error of a constructor is represented by its message. -/
abbrev CtorResult := Option Action × Option String

/-- The nine constructors of package `action` that the classifier calls, taken
as a parameter: each receives the record and, for `Attack` and `Repair`, the
context values read from the parser state. -/
structure Constructors where
  PickupFromCSVRecord : List String → CtorResult
  AddedFromCSVRecord : List String → CtorResult
  SelectShipFromCSVRecord : List String → CtorResult
  HyperFromCSVRecord : List String → CtorResult
  AttackFromCSVRecord : List String → String → String → Int → CtorResult
  LevelUpFromCSVRecord : List String → CtorResult
  ScrapFromCSVRecord : List String → CtorResult
  SelfRepFromCSVRecord : List String → CtorResult
  RepairFromCSVRecord : List String → String → Int → CtorResult

/-! ## `parser.go` -/

/-- The constant `CruiserShipType`. -/
def CruiserShipType : String := "cruiser/carrier"

/-- The struct `parserState`. -/
structure parserState where
  pilotName : String
  currentShipType : String
  currentShipLevel : Int
  deriving DecidableEq, Repr

/-- The errors `NewActionFromCSVRecord` can return.  The two it creates itself
(`fmt.Errorf("unexpected record len %d", len(record))` and
`errors.New("not implemented")`) are fresh values of their call sites; an error
handed back by a constructor is passed through unchanged. -/
inductive RecordError where
  | unexpectedRecordLen (len : Nat)
  | notImplemented
  | fromConstructor (msg : String)
  deriving DecidableEq, Repr

/-- The statement at which `NewActionFromCSVRecord` returns: one of the two
errors, the `nil, nil` of an ignored log line, or the call of a constructor
together with the arguments it is given. -/
inductive Dispatch where
  | unexpectedRecordLen (len : Nat)
  | ignored
  | Pickup (record : List String)
  | Added (record : List String)
  | SelectShip (record : List String)
  | Hyper (record : List String)
  | Attack (record : List String) (pilotName shipType : String) (shipLevel : Int)
  | LevelUp (record : List String)
  | Scrap (record : List String)
  | SelfRep (record : List String)
  | Repair (record : List String) (pilotName : String) (shipLevel : Int)
  | notImplemented
  deriving DecidableEq, Repr

/-- The string slice the `for ... range` loop of the ignore section walks. -/
def ignoredExact : List String :=
  [ "Taken sector damage",
    "Earned domination bonus",
    "Hit by atmospheric anomaly",
    "Exited carrier",
    "Hit by base explosion" ]

/-- The control flow of `NewActionFromCSVRecord`, lines 25-83: the chain of
`if`s in source order, each returning the statement reached. -/
def dispatch (ps : parserState) (record : List String) : Dispatch :=
  if record.length ≠ 6 then
    .unexpectedRecordLen record.length
  else
    let actionRecord := record.getD 3 ""
    -- Start off with logs we will ignore
    if startsWith actionRecord "Set autopilot to" then .ignored
    else if startsWith actionRecord "Unset autopilot" then .ignored
    else if startsWith actionRecord "Entered carrier" then .ignored
    else if ignoredExact.any (fun s => actionRecord == s) then .ignored
    -- Now logs we are interested in
    else if startsWith actionRecord "Pickup" then .Pickup record
    else if actionRecord == "Added to the game" then .Added record
    else if startsWith actionRecord "Selected to pilot a" then .SelectShip record
    else if startsWith actionRecord "Hypered to " then .Hyper record
    else if containsStr actionRecord "attacked" then
      .Attack record ps.pilotName ps.currentShipType ps.currentShipLevel
    else if startsWith actionRecord "Achieved level"
        || startsWith actionRecord "Awarded cruiser" then .LevelUp record
    else if endsWith actionRecord "scrap" then .Scrap record
    else if containsStr actionRecord "repaired" then
      if actionRecord == "Self repaired" then .SelfRep record
      else .Repair record ps.pilotName ps.currentShipLevel
    else .notImplemented

/-- A constructor's result as returned by `NewActionFromCSVRecord`. -/
def liftResult (r : CtorResult) : Option Action × Option RecordError :=
  (r.1, r.2.map RecordError.fromConstructor)

/-- What the statement reached returns, given the constructors. -/
def Dispatch.run (c : Constructors) : Dispatch → Option Action × Option RecordError
  | .unexpectedRecordLen n => (none, some (.unexpectedRecordLen n))
  | .ignored => (none, none)
  | .Pickup r => liftResult (c.PickupFromCSVRecord r)
  | .Added r => liftResult (c.AddedFromCSVRecord r)
  | .SelectShip r => liftResult (c.SelectShipFromCSVRecord r)
  | .Hyper r => liftResult (c.HyperFromCSVRecord r)
  | .Attack r p t l => liftResult (c.AttackFromCSVRecord r p t l)
  | .LevelUp r => liftResult (c.LevelUpFromCSVRecord r)
  | .Scrap r => liftResult (c.ScrapFromCSVRecord r)
  | .SelfRep r => liftResult (c.SelfRepFromCSVRecord r)
  | .Repair r p l => liftResult (c.RepairFromCSVRecord r p l)
  | .notImplemented => (none, some .notImplemented)

/-- The method `(ps *parserState) NewActionFromCSVRecord(record)`.  It only reads
`ps`; the pair is Go's `(action.Action, error)`. -/
def NewActionFromCSVRecord (c : Constructors) (ps : parserState)
    (record : List String) : Option Action × Option RecordError :=
  (dispatch ps record).run c

/-- Lines 117-132 of `ParseTVSLog`: the update of the parser state by the action
a record produced.  Each branch tests the tag and then down-casts to the
variant of that tag (the inner `match`) to read its field. -/
def updateState (ps : parserState) (turnAction : Action) : parserState :=
  if turnAction.ActionType = .Added then
    match turnAction with
    | .Added pilotName => { ps with pilotName := pilotName }
    | _ => ps
  else if turnAction.ActionType = .SelectShip then
    match turnAction with
    | .SelectShip shipType => { ps with currentShipType := shipType }
    | _ => ps
  else if turnAction.ActionType = .LevelUp then
    match turnAction with
    | .LevelUp level =>
      let ps1 := { ps with currentShipLevel := level }
      if level = 6 then { ps1 with currentShipType := CruiserShipType } else ps1
    | _ => ps
  else ps

/-- What the loop of `ParseTVSLog` carries from one record to the next: the
parser state, the slice `actions`, and the lines written by `log.Printf`
(each the record and the error reported for it). -/
structure LoopState where
  parserState : parserState
  actions : List Action
  logged : List (List String × RecordError)
  deriving DecidableEq, Repr

/-- Lines 107-134: the body of the loop of `ParseTVSLog` for one record read
without failure. -/
def ParseTVSLog.step (c : Constructors) (st : LoopState) (csvSlice : List String) :
    LoopState :=
  match NewActionFromCSVRecord c st.parserState csvSlice with
  | (_, some err) =>
    -- log.Printf(...); continue
    { st with logged := st.logged ++ [(csvSlice, err)] }
  | (none, none) =>
    -- considered inconsequential (i.e. sector damage)
    st
  | (some turnAction, none) =>
    { parserState := updateState st.parserState turnAction
      actions := st.actions ++ [turnAction]
      logged := st.logged }

/-- The error value of a failed `Read`: `io.EOF`, or any other failure. -/
inductive ReadError where
  | EOF
  | other (msg : String)
  deriving DecidableEq, Repr

/-- A call of `logReader.Read()` that is not at the end of the input: a record,
or a failure. -/
inductive ReadOutcome where
  | record (csvSlice : List String)
  | failure (msg : String)
  deriving DecidableEq, Repr

/-- The error `fmt.Errorf("failed to parse TVS log file: %w", err)`. -/
inductive ParseError where
  | failedToParse (cause : ReadError)
  deriving DecidableEq, Repr

/-- What a call of `ParseTVSLog` yields: the returned pair (`actions = none` is
the `nil` slice) and the lines it logged. -/
structure ParseResult where
  actions : Option (List Action)
  err : Option ParseError
  logged : List (List String × RecordError)
  deriving DecidableEq, Repr

/-- Lines 98-137: the `for` loop over the remaining reads.  The exhausted list is
`io.EOF` (`break`, then `return actions, nil`). -/
def ParseTVSLog.loop (c : Constructors) : LoopState → List ReadOutcome → ParseResult
  | st, [] => { actions := some st.actions, err := none, logged := st.logged }
  | st, .failure msg :: _ =>
    { actions := none, err := some (.failedToParse (.other msg)), logged := st.logged }
  | st, .record csvSlice :: rest => ParseTVSLog.loop c (ParseTVSLog.step c st csvSlice) rest

/-- The zero value `&parserState{}`. -/
def parserState.zero : parserState :=
  { pilotName := "", currentShipType := "", currentShipLevel := 0 }

/-- The loop state on entry: zero parser state, `make([]action.Action, 0)`. -/
def LoopState.initial : LoopState :=
  { parserState := parserState.zero, actions := [], logged := [] }

/-- The function `ParseTVSLog`, on the outcomes of the reader's `Read` calls: the
first read is the heading line and is discarded. -/
def ParseTVSLog (c : Constructors) : List ReadOutcome → ParseResult
  | [] => { actions := none, err := some (.failedToParse .EOF), logged := [] }
  | .failure msg :: _ =>
    { actions := none, err := some (.failedToParse (.other msg)), logged := [] }
  | .record _ :: rest => ParseTVSLog.loop c LoopState.initial rest

/-- The loop body run over records that are all read without failure. -/
def processRecords (c : Constructors) (st : LoopState) (rows : List (List String)) :
    LoopState :=
  rows.foldl (ParseTVSLog.step c) st

/-- The parser state in which record number `i` of `rows` is classified, when
the loop starts in state `ps`. -/
def stateBefore (c : Constructors) (ps : parserState) (rows : List (List String))
    (i : Nat) : parserState :=
  (processRecords c { parserState := ps, actions := [], logged := [] }
    (rows.take i)).parserState

/-- The parser state after the loop body has handled one record in state `ps`. -/
def nextState (c : Constructors) (ps : parserState) (record : List String) : parserState :=
  (ParseTVSLog.step c { parserState := ps, actions := [], logged := [] } record).parserState

/-- The action record number `i` of `rows` contributes to the output: the one
its classification returns, when it returns an action and no error. -/
def producedAt (c : Constructors) (ps : parserState) (rows : List (List String))
    (i : Nat) : Option Action :=
  match rows[i]? with
  | none => none
  | some r =>
    match NewActionFromCSVRecord c (stateBefore c ps rows i) r with
    | (some a, none) => some a
    | _ => none

/-- The actions constructed for the records of `rows` whose classification
returns an action and no error, in the order of the records. -/
def producedActions (c : Constructors) (ps : parserState) (rows : List (List String)) :
    List Action :=
  (List.range rows.length).filterMap (producedAt c ps rows)

/-- Classifying record number `i` of `rows` returns an error. -/
def failsAt (c : Constructors) (ps : parserState) (rows : List (List String))
    (i : Nat) : Bool :=
  match rows[i]? with
  | none => false
  | some r => (NewActionFromCSVRecord c (stateBefore c ps rows i) r).2.isSome

/-- The records of `rows` in order, without those whose classification fails. -/
def withoutFailing (c : Constructors) (ps : parserState) (rows : List (List String)) :
    List (List String) :=
  (List.range rows.length).filterMap
    (fun i => if failsAt c ps rows i then none else rows[i]?)

/-! ## The patterns in the words of the specification -/

/-- The description field of a record: field index 3. -/
def description (record : List String) : String :=
  record.getD 3 ""

/-- The explicit-ignore set of the specification: three prefix patterns and five
exact ones. -/
def Spec.isIgnorable (d : String) : Bool :=
  startsWith d "Set autopilot to" || startsWith d "Unset autopilot"
    || startsWith d "Entered carrier"
    || d == "Taken sector damage" || d == "Earned domination bonus"
    || d == "Hit by atmospheric anomaly" || d == "Exited carrier"
    || d == "Hit by base explosion"

/-- The eight recognized patterns of the specification. -/
inductive Spec.Pattern where
  | Pickup | Added | SelectShip | Hyper | Attack | LevelUp | Scrap | Repaired
  deriving DecidableEq, Repr

/-- The recognized-action set as the ordered list of (predicate, pattern) pairs
of the specification. -/
def Spec.recognized : List ((String → Bool) × Spec.Pattern) :=
  [ (fun d => startsWith d "Pickup", .Pickup),
    (fun d => d == "Added to the game", .Added),
    (fun d => startsWith d "Selected to pilot a", .SelectShip),
    (fun d => startsWith d "Hypered to ", .Hyper),
    (fun d => containsStr d "attacked", .Attack),
    (fun d => startsWith d "Achieved level" || startsWith d "Awarded cruiser", .LevelUp),
    (fun d => endsWith d "scrap", .Scrap),
    (fun d => containsStr d "repaired", .Repaired) ]

/-- First match wins: the pattern of the first pair whose predicate holds. -/
def Spec.firstMatch (d : String) : Option Spec.Pattern :=
  (Spec.recognized.find? (fun p => p.1 d)).map (fun p => p.2)

/-- Some recognized pattern matches. -/
def Spec.isRecognized (d : String) : Bool :=
  Spec.recognized.any (fun p => p.1 d)

/-- Decimal digits to a number; `none` on the empty string or a non-digit. -/
def parseLevel (s : String) : Option Int :=
  if s.data.isEmpty || !(s.data.all Char.isDigit) then none
  else some (Int.ofNat (s.data.foldl (fun n ch => 10 * n + (ch.toNat - 48)) 0))

/-- Modelled from the spec: one concrete instance of the constructors of package
`action` (which is not among the embedded sources), on which the theorems are
instantiated.  String fields are copied verbatim (the pilot name from field 2,
the ship type and the level from field 4), context values are stored as
given, and a level that is not a number is a construction error. -/
def sampleConstructors : Constructors where
  PickupFromCSVRecord r := (some (.Pickup r), none)
  AddedFromCSVRecord r := (some (.Added (r.getD 2 "")), none)
  SelectShipFromCSVRecord r := (some (.SelectShip (r.getD 4 "")), none)
  HyperFromCSVRecord r := (some (.Hyper r), none)
  AttackFromCSVRecord r p t l := (some (.Attack p t l r), none)
  LevelUpFromCSVRecord r :=
    match parseLevel (r.getD 4 "") with
    | some n => (some (.LevelUp n), none)
    | none => (none, some "malformed level")
  ScrapFromCSVRecord r := (some (.Scrap r), none)
  SelfRepFromCSVRecord r := (some (.SelfRepair r), none)
  RepairFromCSVRecord r p l := (some (.Repair p l r), none)

/-- The dispatch written as a lookup in the ordered list of the specification:
shape check, ignore set, then the constructor of the first matching pattern. -/
def Spec.dispatch (ps : parserState) (record : List String) : Dispatch :=
  if record.length ≠ 6 then .unexpectedRecordLen record.length
  else if Spec.isIgnorable (description record) then .ignored
  else
    match Spec.firstMatch (description record) with
    | none => .notImplemented
    | some .Pickup => .Pickup record
    | some .Added => .Added record
    | some .SelectShip => .SelectShip record
    | some .Hyper => .Hyper record
    | some .Attack => .Attack record ps.pilotName ps.currentShipType ps.currentShipLevel
    | some .LevelUp => .LevelUp record
    | some .Scrap => .Scrap record
    | some .Repaired =>
      if description record == "Self repaired" then .SelfRep record
      else .Repair record ps.pilotName ps.currentShipLevel

/-- The return statement of `NewActionFromCSVRecord` that is reached, without
the arguments handed to a constructor. -/
inductive Branch where
  | unexpectedRecordLen | ignored | Pickup | Added | SelectShip | Hyper | Attack
  | LevelUp | Scrap | SelfRep | Repair | notImplemented
  deriving DecidableEq, Repr

/-- The branch a dispatch takes. -/
def Dispatch.branch : Dispatch → Branch
  | .unexpectedRecordLen _ => .unexpectedRecordLen
  | .ignored => .ignored
  | .Pickup _ => .Pickup
  | .Added _ => .Added
  | .SelectShip _ => .SelectShip
  | .Hyper _ => .Hyper
  | .Attack _ _ _ _ => .Attack
  | .LevelUp _ => .LevelUp
  | .Scrap _ => .Scrap
  | .SelfRep _ => .SelfRep
  | .Repair _ _ _ => .Repair
  | .notImplemented => .notImplemented

/-- The read reports a failure (an error other than `io.EOF`). -/
def ReadOutcome.isFailure : ReadOutcome → Bool
  | .failure _ => true
  | .record _ => false

/-- Some read of the input reports a failure. -/
def hasReadFailure (reads : List ReadOutcome) : Bool :=
  reads.any ReadOutcome.isFailure

/-- The error `csv.ErrFieldCount`, by its message. -/
def ErrFieldCount : String := "wrong number of fields"

/-- The outcomes of the `Read` calls of the reader `csv.NewReader(r)` of line 89
on an input whose lines parse to `records`.  The reader is used with its
default `FieldsPerRecord = 0`: the first record fixes the number of fields, and
`Read` reports `csv.ErrFieldCount` for every later record with another number
of fields.  (Failures of the quoting rules are not part of this model.) -/
def csvRead : List (List String) → List ReadOutcome
  | [] => []
  | header :: rows =>
    .record header ::
      rows.map (fun r => if r.length = header.length then .record r
        else .failure ErrFieldCount)

/-! ## Lemmas on the dispatch -/

theorem dispatch_of_length_ne (ps : parserState) (record : List String)
    (h : record.length ≠ 6) : dispatch ps record = .unexpectedRecordLen record.length := by
  simp [dispatch, h]

theorem ignoredExact_any (d : String) :
    ignoredExact.any (fun s => d == s)
      = (d == "Taken sector damage" || (d == "Earned domination bonus"
          || (d == "Hit by atmospheric anomaly" || (d == "Exited carrier"
          || (d == "Hit by base explosion" || false))))) := by
  rfl

theorem firstMatch_eq (d : String) :
    Spec.firstMatch d =
      bif startsWith d "Pickup" then some .Pickup
      else bif d == "Added to the game" then some .Added
      else bif startsWith d "Selected to pilot a" then some .SelectShip
      else bif startsWith d "Hypered to " then some .Hyper
      else bif containsStr d "attacked" then some .Attack
      else bif startsWith d "Achieved level" || startsWith d "Awarded cruiser" then some .LevelUp
      else bif endsWith d "scrap" then some .Scrap
      else bif containsStr d "repaired" then some .Repaired
      else none := by
  simp only [Spec.firstMatch, Spec.recognized, List.find?_cons, List.find?_nil]
  cases startsWith d "Pickup" <;> [skip; rfl]
  cases d == "Added to the game" <;> [skip; rfl]
  cases startsWith d "Selected to pilot a" <;> [skip; rfl]
  cases startsWith d "Hypered to " <;> [skip; rfl]
  cases containsStr d "attacked" <;> [skip; rfl]
  cases startsWith d "Achieved level" || startsWith d "Awarded cruiser" <;> [skip; rfl]
  cases endsWith d "scrap" <;> [skip; rfl]
  cases containsStr d "repaired" <;> rfl

theorem dispatch_eq_spec (ps : parserState) (record : List String) :
    dispatch ps record = Spec.dispatch ps record := by
  by_cases hlen : record.length = 6
  · unfold dispatch Spec.dispatch Spec.isIgnorable description
    rw [if_neg (not_not.mpr hlen), if_neg (not_not.mpr hlen), firstMatch_eq]
    dsimp only
    rw [ignoredExact_any]
    generalize record.getD 3 "" = d
    cases startsWith d "Set autopilot to" <;> [skip; rfl]
    cases startsWith d "Unset autopilot" <;> [skip; rfl]
    cases startsWith d "Entered carrier" <;> [skip; rfl]
    cases d == "Taken sector damage" <;> [skip; rfl]
    cases d == "Earned domination bonus" <;> [skip; rfl]
    cases d == "Hit by atmospheric anomaly" <;> [skip; rfl]
    cases d == "Exited carrier" <;> [skip; rfl]
    cases d == "Hit by base explosion" <;> [skip; rfl]
    cases startsWith d "Pickup" <;> [skip; rfl]
    cases d == "Added to the game" <;> [skip; rfl]
    cases startsWith d "Selected to pilot a" <;> [skip; rfl]
    cases startsWith d "Hypered to " <;> [skip; rfl]
    cases containsStr d "attacked" <;> [skip; rfl]
    cases startsWith d "Achieved level" <;> [skip; rfl]
    cases startsWith d "Awarded cruiser" <;> [skip; rfl]
    cases endsWith d "scrap" <;> [skip; rfl]
    cases containsStr d "repaired" <;> [skip; skip]
    · rfl
    · cases d == "Self repaired" <;> rfl
  · rw [dispatch_of_length_ne ps record hlen]
    simp [Spec.dispatch, hlen]

theorem dispatch_of_ignorable (ps : parserState) (record : List String)
    (hlen : record.length = 6) (h : Spec.isIgnorable (description record) = true) :
    dispatch ps record = .ignored := by
  rw [dispatch_eq_spec, Spec.dispatch, if_neg (not_not.mpr hlen), if_pos h]

theorem firstMatch_eq_none_iff (d : String) :
    Spec.firstMatch d = none ↔ Spec.isRecognized d = false := by
  rw [firstMatch_eq]
  simp only [Spec.isRecognized, Spec.recognized, List.any_cons, List.any_nil]
  cases startsWith d "Pickup" <;> [skip; simp]
  cases d == "Added to the game" <;> [skip; simp]
  cases startsWith d "Selected to pilot a" <;> [skip; simp]
  cases startsWith d "Hypered to " <;> [skip; simp]
  cases containsStr d "attacked" <;> [skip; simp]
  cases startsWith d "Achieved level" || startsWith d "Awarded cruiser" <;> [skip; simp]
  cases endsWith d "scrap" <;> [skip; simp]
  cases containsStr d "repaired" <;> simp

theorem dispatch_notImplemented_iff (ps : parserState) (record : List String) :
    dispatch ps record = .notImplemented ↔
      record.length = 6 ∧ Spec.isIgnorable (description record) = false
        ∧ Spec.isRecognized (description record) = false := by
  rw [dispatch_eq_spec, Spec.dispatch, ← firstMatch_eq_none_iff]
  by_cases hlen : record.length = 6
  · rw [if_neg (not_not.mpr hlen)]
    cases hign : Spec.isIgnorable (description record)
    · rw [if_neg (by simp)]
      cases hfm : Spec.firstMatch (description record) with
      | none => simp [hlen]
      | some p =>
        cases p <;> simp
        split <;> simp
    · simp
  · rw [if_pos hlen]
    simp [hlen]

theorem run_error_notImplemented (c : Constructors) (disp : Dispatch)
    (h : (disp.run c).2 = some .notImplemented) : disp = .notImplemented := by
  cases disp <;> simp [Dispatch.run, liftResult] at h ⊢

theorem step_of_ignored (c : Constructors) (st : LoopState) (record : List String)
    (h : NewActionFromCSVRecord c st.parserState record = (none, none)) :
    ParseTVSLog.step c st record = st := by
  simp [ParseTVSLog.step, h]

theorem step_of_error (c : Constructors) (st : LoopState) (record : List String)
    (a : Option Action) (e : RecordError)
    (h : NewActionFromCSVRecord c st.parserState record = (a, some e)) :
    ParseTVSLog.step c st record = { st with logged := st.logged ++ [(record, e)] } := by
  simp [ParseTVSLog.step, h]

theorem step_of_action (c : Constructors) (st : LoopState) (record : List String)
    (a : Action) (h : NewActionFromCSVRecord c st.parserState record = (some a, none)) :
    ParseTVSLog.step c st record =
      { parserState := updateState st.parserState a, actions := st.actions ++ [a],
        logged := st.logged } := by
  simp [ParseTVSLog.step, h]

/-! ## Lemmas on the loop -/

theorem step_parserState (c : Constructors) (st : LoopState) (record : List String) :
    (ParseTVSLog.step c st record).parserState = nextState c st.parserState record := by
  unfold nextState ParseTVSLog.step
  dsimp only
  split <;> rfl

theorem processRecords_cons (c : Constructors) (st : LoopState) (r : List String)
    (rest : List (List String)) :
    processRecords c st (r :: rest) = processRecords c (ParseTVSLog.step c st r) rest :=
  rfl

theorem processRecords_parserState (c : Constructors) (rows : List (List String)) :
    ∀ st st' : LoopState, st.parserState = st'.parserState →
      (processRecords c st rows).parserState = (processRecords c st' rows).parserState := by
  induction rows with
  | nil => intro st st' h; exact h
  | cons r rest ih =>
    intro st st' h
    rw [processRecords_cons, processRecords_cons]
    apply ih
    rw [step_parserState, step_parserState, h]

theorem stateBefore_zero (c : Constructors) (ps : parserState) (rows : List (List String)) :
    stateBefore c ps rows 0 = ps :=
  rfl

theorem stateBefore_succ (c : Constructors) (ps : parserState) (r : List String)
    (rest : List (List String)) (i : Nat) :
    stateBefore c ps (r :: rest) (i + 1) = stateBefore c (nextState c ps r) rest i := by
  unfold stateBefore
  rw [List.take_succ_cons, processRecords_cons]
  apply processRecords_parserState
  rw [step_parserState]

theorem nextState_of_error (c : Constructors) (ps : parserState) (record : List String)
    (h : (NewActionFromCSVRecord c ps record).2.isSome = true) :
    nextState c ps record = ps := by
  unfold nextState ParseTVSLog.step
  dsimp only
  split
  · rfl
  · rfl
  · next heq => simp [heq] at h

theorem updateState_LevelUp (ps : parserState) (l : Int) :
    updateState ps (.LevelUp l)
      = if l = 6 then ⟨ps.pilotName, CruiserShipType, l⟩
        else ⟨ps.pilotName, ps.currentShipType, l⟩ :=
  rfl

theorem updateState_pilotName (ps : parserState) (a : Action)
    (h : ∀ p, a ≠ .Added p) : (updateState ps a).pilotName = ps.pilotName := by
  cases a with
  | Added p => exact absurd rfl (h p)
  | LevelUp l =>
    rw [updateState_LevelUp]
    split <;> rfl
  | _ => rfl

theorem nextState_pilotName (c : Constructors) (ps : parserState) (record : List String)
    (h : ∀ p, NewActionFromCSVRecord c ps record ≠ (some (.Added p), none)) :
    (nextState c ps record).pilotName = ps.pilotName := by
  unfold nextState ParseTVSLog.step
  dsimp only
  split
  · rfl
  · rfl
  · next a heq =>
    apply updateState_pilotName
    intro p hp
    exact h p (by rw [heq, hp])

theorem producedAt_zero (c : Constructors) (ps : parserState) (r : List String)
    (rest : List (List String)) :
    producedAt c ps (r :: rest) 0
      = match NewActionFromCSVRecord c ps r with
        | (some a, none) => some a
        | _ => none := by
  unfold producedAt
  rw [List.getElem?_cons_zero]
  rfl

theorem producedAt_succ (c : Constructors) (ps : parserState) (r : List String)
    (rest : List (List String)) (i : Nat) :
    producedAt c ps (r :: rest) (i + 1) = producedAt c (nextState c ps r) rest i := by
  unfold producedAt
  rw [stateBefore_succ, List.getElem?_cons_succ]

theorem processRecords_pilotName (c : Constructors) (rows : List (List String)) :
    ∀ st : LoopState,
      (∀ i, i < rows.length →
        (producedAt c st.parserState rows i).map Action.ActionType ≠ some .Added) →
      (processRecords c st rows).parserState.pilotName = st.parserState.pilotName := by
  induction rows with
  | nil => intro st _; rfl
  | cons r rest ih =>
    intro st h
    rw [processRecords_cons, ih, step_parserState]
    · apply nextState_pilotName
      intro p hp
      have := h 0 (Nat.succ_pos _)
      rw [producedAt_zero, hp] at this
      exact this rfl
    · intro i hi
      have := h (i + 1) (Nat.succ_lt_succ hi)
      rw [producedAt_succ] at this
      rw [step_parserState]
      exact this

theorem dispatch_of_firstMatch_attack (ps : parserState) (record : List String)
    (hlen : record.length = 6) (hign : Spec.isIgnorable (description record) = false)
    (hfm : Spec.firstMatch (description record) = some .Attack) :
    dispatch ps record
      = .Attack record ps.pilotName ps.currentShipType ps.currentShipLevel := by
  rw [dispatch_eq_spec, Spec.dispatch, if_neg (not_not.mpr hlen), hign, if_neg (by simp), hfm]

theorem dispatch_attack_args (ps : parserState) (record rec : List String)
    (p t : String) (l : Int) (h : dispatch ps record = .Attack rec p t l) :
    rec = record ∧ p = ps.pilotName ∧ t = ps.currentShipType ∧ l = ps.currentShipLevel := by
  rw [dispatch_eq_spec, Spec.dispatch] at h
  split at h
  · cases h
  · split at h
    · cases h
    · split at h <;> try cases h
      · exact ⟨rfl, rfl, rfl, rfl⟩
      · split at h <;> cases h

theorem dispatch_repair_args (ps : parserState) (record rec : List String)
    (p : String) (l : Int) (h : dispatch ps record = .Repair rec p l) :
    rec = record ∧ p = ps.pilotName ∧ l = ps.currentShipLevel := by
  rw [dispatch_eq_spec, Spec.dispatch] at h
  split at h
  · cases h
  · split at h
    · cases h
    · split at h <;> try cases h
      split at h <;> cases h
      exact ⟨rfl, rfl, rfl⟩

theorem filterMap_range_succ {α : Type} (f : Nat → Option α) (n : Nat) :
    (List.range (n + 1)).filterMap f
      = (f 0).toList ++ (List.range n).filterMap (fun i => f (i + 1)) := by
  rw [List.range_succ_eq_map, List.filterMap_cons, List.filterMap_map]
  cases f 0 <;> rfl

theorem producedActions_cons (c : Constructors) (ps : parserState) (r : List String)
    (rest : List (List String)) :
    producedActions c ps (r :: rest)
      = (producedAt c ps (r :: rest) 0).toList
          ++ producedActions c (nextState c ps r) rest := by
  unfold producedActions
  rw [List.length_cons, filterMap_range_succ]
  congr 2
  funext i
  exact producedAt_succ c ps r rest i

theorem step_actions (c : Constructors) (st : LoopState) (r : List String)
    (rest : List (List String)) :
    (ParseTVSLog.step c st r).actions
      = st.actions ++ (producedAt c st.parserState (r :: rest) 0).toList := by
  rw [producedAt_zero]
  unfold ParseTVSLog.step
  split
  · next a e heq => rw [heq]; cases a <;> simp
  · next heq => rw [heq]; simp
  · next a heq => rw [heq]; rfl

theorem processRecords_actions (c : Constructors) (rows : List (List String)) :
    ∀ st : LoopState,
      (processRecords c st rows).actions
        = st.actions ++ producedActions c st.parserState rows := by
  induction rows with
  | nil => intro st; simp [processRecords, producedActions]
  | cons r rest ih =>
    intro st
    rw [processRecords_cons, ih, step_actions c st r rest, producedActions_cons,
      step_parserState, List.append_assoc]

theorem loop_records (c : Constructors) (rows : List (List String)) :
    ∀ st : LoopState,
      ParseTVSLog.loop c st (rows.map ReadOutcome.record)
        = { actions := some (processRecords c st rows).actions, err := none,
            logged := (processRecords c st rows).logged } := by
  induction rows with
  | nil => intro st; rfl
  | cons r rest ih =>
    intro st
    rw [List.map_cons, ParseTVSLog.loop, ih, processRecords_cons]

theorem ParseTVSLog_records (c : Constructors) (header : List String)
    (rows : List (List String)) :
    ParseTVSLog c (.record header :: rows.map ReadOutcome.record)
      = { actions := some (producedActions c parserState.zero rows), err := none,
          logged := (processRecords c LoopState.initial rows).logged } := by
  rw [ParseTVSLog, loop_records, processRecords_actions]
  rfl

theorem length_filterMap_lt {α β : Type} (f : α → Option β) (l : List α)
    (h : ∃ x, x ∈ l ∧ f x = none) : (l.filterMap f).length < l.length := by
  induction l with
  | nil =>
    obtain ⟨x, hx, _⟩ := h
    cases hx
  | cons y ys ih =>
    obtain ⟨x, hx, hfx⟩ := h
    rw [List.filterMap_cons]
    cases hy : f y with
    | none =>
      dsimp only
      have := List.length_filterMap_le f ys
      rw [List.length_cons]
      omega
    | some b =>
      dsimp only
      rw [List.length_cons, List.length_cons]
      rcases List.mem_cons.1 hx with rfl | hmem
      · rw [hfx] at hy
        cases hy
      · exact Nat.succ_lt_succ (ih ⟨x, hmem, hfx⟩)

theorem failsAt_zero (c : Constructors) (ps : parserState) (r : List String)
    (rest : List (List String)) :
    failsAt c ps (r :: rest) 0 = (NewActionFromCSVRecord c ps r).2.isSome := by
  unfold failsAt
  rw [List.getElem?_cons_zero]
  rfl

theorem failsAt_succ (c : Constructors) (ps : parserState) (r : List String)
    (rest : List (List String)) (i : Nat) :
    failsAt c ps (r :: rest) (i + 1) = failsAt c (nextState c ps r) rest i := by
  unfold failsAt
  rw [stateBefore_succ, List.getElem?_cons_succ]

theorem producedAt_of_failsAt (c : Constructors) (ps : parserState)
    (rows : List (List String)) (i : Nat) (h : failsAt c ps rows i = true) :
    producedAt c ps rows i = none := by
  unfold failsAt at h
  unfold producedAt
  split
  · rfl
  · next r hr =>
    rw [hr] at h
    dsimp only at h
    split
    · next a heq => rw [heq] at h; cases h
    · rfl

theorem withoutFailing_cons (c : Constructors) (ps : parserState) (r : List String)
    (rest : List (List String)) :
    withoutFailing c ps (r :: rest)
      = (if (NewActionFromCSVRecord c ps r).2.isSome then [] else [r])
          ++ withoutFailing c (nextState c ps r) rest := by
  unfold withoutFailing
  rw [List.length_cons, filterMap_range_succ, failsAt_zero]
  congr 1
  · cases (NewActionFromCSVRecord c ps r).2.isSome <;> simp
  · congr 1
    funext i
    rw [failsAt_succ, List.getElem?_cons_succ]

theorem producedActions_withoutFailing (c : Constructors) (rows : List (List String)) :
    ∀ ps : parserState,
      producedActions c ps (withoutFailing c ps rows) = producedActions c ps rows := by
  induction rows with
  | nil => intro ps; rfl
  | cons r rest ih =>
    intro ps
    rw [withoutFailing_cons, producedActions_cons c ps r rest]
    cases hf : (NewActionFromCSVRecord c ps r).2.isSome with
    | true =>
      rw [producedAt_of_failsAt c ps (r :: rest) 0 ((failsAt_zero c ps r rest).trans hf),
        nextState_of_error c ps r hf]
      simp only [if_true, List.nil_append, Option.toList]
      exact ih ps
    | false =>
      simp only [Bool.false_eq_true, if_false, List.singleton_append]
      rw [producedActions_cons, ih, producedAt_zero, producedAt_zero]

theorem failsAt_withoutFailing (c : Constructors) (rows : List (List String)) :
    ∀ (ps : parserState) (j : Nat),
      failsAt c ps (withoutFailing c ps rows) j = false := by
  induction rows with
  | nil => intro ps j; rfl
  | cons r rest ih =>
    intro ps j
    rw [withoutFailing_cons]
    cases hf : (NewActionFromCSVRecord c ps r).2.isSome with
    | true =>
      rw [nextState_of_error c ps r hf]
      simp only [if_true, List.nil_append]
      exact ih ps j
    | false =>
      simp only [Bool.false_eq_true, if_false, List.singleton_append]
      cases j with
      | zero => rw [failsAt_zero]; exact hf
      | succ k => rw [failsAt_succ]; exact ih _ k

theorem csvRead_of_same_count (header : List String) (rows : List (List String))
    (h : ∀ r ∈ rows, r.length = header.length) :
    csvRead (header :: rows) = .record header :: rows.map ReadOutcome.record := by
  show ReadOutcome.record header :: rows.map _ = _
  congr 1
  apply List.map_congr_left
  intro r hr
  rw [if_pos (h r hr)]

theorem mem_of_mem_withoutFailing (c : Constructors) (ps : parserState)
    (rows : List (List String)) (r : List String)
    (h : r ∈ withoutFailing c ps rows) : r ∈ rows := by
  unfold withoutFailing at h
  obtain ⟨i, _, hi⟩ := List.mem_filterMap.1 h
  split at hi
  · cases hi
  · exact List.getElem?_mem hi

theorem hasReadFailure_map_record (rows : List (List String)) :
    hasReadFailure (rows.map ReadOutcome.record) = false := by
  induction rows with
  | nil => rfl
  | cons r rest ih =>
    rw [List.map_cons, hasReadFailure, List.any_cons]
    exact ih

/-! ## The claims -/

/-- C1: a 6-field record whose description matches an ignore pattern yields no
action and no error in every state, the loop body leaves the whole loop state
(parser state, actions, log) as it was, and so does processing the same record
`n` times, for every `n`. -/
theorem ignorable_record_is_skipped (c : Constructors) (st : LoopState)
    (record : List String) (n : Nat) (hlen : record.length = 6)
    (hign : Spec.isIgnorable (description record) = true) :
    NewActionFromCSVRecord c st.parserState record = (none, none)
      ∧ ParseTVSLog.step c st record = st
      ∧ processRecords c st (List.replicate n record) = st := by
  have h1 : NewActionFromCSVRecord c st.parserState record = (none, none) := by
    rw [NewActionFromCSVRecord, dispatch_of_ignorable _ _ hlen hign]
    rfl
  have h2 := step_of_ignored c st record h1
  refine ⟨h1, h2, ?_⟩
  induction n with
  | zero => rfl
  | succ k ih =>
    rw [List.replicate_succ, processRecords, List.foldl_cons, h2]
    exact ih

/-- C1 at the record with description "Entered carrier, attacked", which also
matches the recognized pattern `contains "attacked"`, processed five times. -/
theorem ignorable_record_is_skipped_witness :
    containsStr "Entered carrier, attacked" "attacked" = true
      ∧ NewActionFromCSVRecord sampleConstructors ⟨"Alice", "fighter", 2⟩
          ["t", "s", "Alice", "Entered carrier, attacked", "", ""] = (none, none)
      ∧ ParseTVSLog.step sampleConstructors ⟨⟨"Alice", "fighter", 2⟩, [.Added "Alice"], []⟩
          ["t", "s", "Alice", "Entered carrier, attacked", "", ""]
          = ⟨⟨"Alice", "fighter", 2⟩, [.Added "Alice"], []⟩
      ∧ processRecords sampleConstructors ⟨⟨"Alice", "fighter", 2⟩, [.Added "Alice"], []⟩
          (List.replicate 5 ["t", "s", "Alice", "Entered carrier, attacked", "", ""])
          = ⟨⟨"Alice", "fighter", 2⟩, [.Added "Alice"], []⟩ :=
  ⟨by decide,
   ignorable_record_is_skipped sampleConstructors
     ⟨⟨"Alice", "fighter", 2⟩, [.Added "Alice"], []⟩
     ["t", "s", "Alice", "Entered carrier, attacked", "", ""] 5 (by decide) (by decide)⟩

/-- C2: a record whose number of fields is not 6 (the empty record included)
fails with the unexpected-record-length error and no action in every state; the
loop body logs that error and leaves parser state and actions as they were. -/
theorem wrong_field_count_fails (c : Constructors) (st : LoopState)
    (record : List String) (hlen : record.length ≠ 6) :
    NewActionFromCSVRecord c st.parserState record
        = (none, some (.unexpectedRecordLen record.length))
      ∧ (ParseTVSLog.step c st record).parserState = st.parserState
      ∧ (ParseTVSLog.step c st record).actions = st.actions
      ∧ (ParseTVSLog.step c st record).logged
          = st.logged ++ [(record, .unexpectedRecordLen record.length)] := by
  have h1 : NewActionFromCSVRecord c st.parserState record
      = (none, some (.unexpectedRecordLen record.length)) := by
    rw [NewActionFromCSVRecord, dispatch_of_length_ne _ _ hlen]
    rfl
  rw [step_of_error c st record _ _ h1]
  exact ⟨h1, rfl, rfl, rfl⟩

/-- C2 at the empty record and at a record of seven fields. -/
theorem wrong_field_count_fails_witness :
    NewActionFromCSVRecord sampleConstructors ⟨"Alice", "fighter", 2⟩ []
        = (none, some (.unexpectedRecordLen 0))
      ∧ (ParseTVSLog.step sampleConstructors ⟨⟨"Alice", "fighter", 2⟩, [], []⟩
          ["", "", "", "Added to the game", "", "", ""]).parserState
          = ⟨"Alice", "fighter", 2⟩ :=
  ⟨(wrong_field_count_fails sampleConstructors ⟨⟨"Alice", "fighter", 2⟩, [], []⟩ []
      (by decide)).1,
   (wrong_field_count_fails sampleConstructors ⟨⟨"Alice", "fighter", 2⟩, [], []⟩
      ["", "", "", "Added to the game", "", "", ""] (by decide)).2.1⟩

/-- C3: a 6-field record whose description matches neither an ignore pattern
nor a recognized pattern fails with the not-implemented error and no action;
conversely, whenever the error returned is the not-implemented error, the
record has 6 fields and its description matches no ignore pattern and no
recognized pattern. -/
theorem unrecognized_iff_not_implemented (c : Constructors) (ps : parserState)
    (record : List String) :
    (record.length = 6 ∧ Spec.isIgnorable (description record) = false
        ∧ Spec.isRecognized (description record) = false
      → NewActionFromCSVRecord c ps record = (none, some .notImplemented))
    ∧ ((NewActionFromCSVRecord c ps record).2 = some .notImplemented
      → record.length = 6 ∧ Spec.isIgnorable (description record) = false
        ∧ Spec.isRecognized (description record) = false) := by
  constructor
  · intro h
    rw [NewActionFromCSVRecord, (dispatch_notImplemented_iff ps record).2 h]
    rfl
  · intro h
    exact (dispatch_notImplemented_iff ps record).1 (run_error_notImplemented c _ h)

/-- C3 at the record with description "unknown frobnicated" (forward
direction), and the converse read off the error returned for it. -/
theorem unrecognized_iff_not_implemented_witness :
    NewActionFromCSVRecord sampleConstructors ⟨"Alice", "fighter", 2⟩
        ["t", "s", "Alice", "unknown frobnicated", "", ""] = (none, some .notImplemented)
      ∧ Spec.isRecognized (description ["t", "s", "Alice", "unknown frobnicated", "", ""])
          = false :=
  ⟨(unrecognized_iff_not_implemented sampleConstructors ⟨"Alice", "fighter", 2⟩
      ["t", "s", "Alice", "unknown frobnicated", "", ""]).1
      ⟨by decide, by decide, by decide⟩,
   ((unrecognized_iff_not_implemented sampleConstructors ⟨"Alice", "fighter", 2⟩
      ["t", "s", "Alice", "unknown frobnicated", "", ""]).2 (by decide)).2.2⟩

/-- C5: when classifying a record yields an action and no error, the loop body
appends the action and updates the parser state by its tag: Added sets
`pilotName`, SelectShip sets `currentShipType`, LevelUp sets
`currentShipLevel` and, exactly when the level is 6, sets `currentShipType` to
"cruiser/carrier"; every other field keeps its value. -/
theorem state_update_by_tag (c : Constructors) (st : LoopState) (record : List String)
    (a : Action) (h : NewActionFromCSVRecord c st.parserState record = (some a, none)) :
    (ParseTVSLog.step c st record).actions = st.actions ++ [a]
    ∧ (∀ p, a = .Added p →
        (ParseTVSLog.step c st record).parserState
          = ⟨p, st.parserState.currentShipType, st.parserState.currentShipLevel⟩)
    ∧ (∀ t, a = .SelectShip t →
        (ParseTVSLog.step c st record).parserState
          = ⟨st.parserState.pilotName, t, st.parserState.currentShipLevel⟩)
    ∧ (∀ l, a = .LevelUp l → l = 6 →
        (ParseTVSLog.step c st record).parserState
          = ⟨st.parserState.pilotName, "cruiser/carrier", l⟩)
    ∧ (∀ l, a = .LevelUp l → l ≠ 6 →
        (ParseTVSLog.step c st record).parserState
          = ⟨st.parserState.pilotName, st.parserState.currentShipType, l⟩) := by
  rw [step_of_action c st record a h]
  refine ⟨rfl, ?_, ?_, ?_, ?_⟩
  · rintro p rfl
    rfl
  · rintro t rfl
    rfl
  · rintro l rfl hl
    simp [updateState_LevelUp, hl, CruiserShipType]
  · rintro l rfl hl
    simp [updateState_LevelUp, hl]

/-- C5 at a level-up record to level 6 processed in a state whose ship type is
"fighter". -/
theorem state_update_by_tag_witness :
    (ParseTVSLog.step sampleConstructors ⟨⟨"Alice", "fighter", 5⟩, [], []⟩
        ["t", "s", "Alice", "Achieved level 6", "6", ""]).parserState
      = ⟨"Alice", "cruiser/carrier", 6⟩ :=
  (state_update_by_tag sampleConstructors ⟨⟨"Alice", "fighter", 5⟩, [], []⟩
      ["t", "s", "Alice", "Achieved level 6", "6", ""] (.LevelUp 6) (by decide)).2.2.2.1
    6 rfl rfl

/-- C6: in every state, after the loop body has processed a record that
produces LevelUp with level 6, `currentShipType` is "cruiser/carrier"; and a
record processed next whose description is dispatched to Attack (6 fields, no
ignore pattern, first matching pattern `contains "attacked"`) has the Attack
constructor called with shipType "cruiser/carrier" and shipLevel 6. -/
theorem level_six_overrides_ship_type (c : Constructors) (st : LoopState)
    (r1 r2 : List String)
    (h1 : NewActionFromCSVRecord c st.parserState r1 = (some (.LevelUp 6), none))
    (hlen : r2.length = 6) (hign : Spec.isIgnorable (description r2) = false)
    (hfm : Spec.firstMatch (description r2) = some .Attack) :
    (ParseTVSLog.step c st r1).parserState.currentShipType = "cruiser/carrier"
      ∧ dispatch (ParseTVSLog.step c st r1).parserState r2
          = .Attack r2 st.parserState.pilotName "cruiser/carrier" 6
      ∧ NewActionFromCSVRecord c (ParseTVSLog.step c st r1).parserState r2
          = liftResult (c.AttackFromCSVRecord r2 st.parserState.pilotName
              "cruiser/carrier" 6) := by
  have hd := dispatch_of_firstMatch_attack (ParseTVSLog.step c st r1).parserState r2
    hlen hign hfm
  rw [NewActionFromCSVRecord, hd]
  rw [step_of_action c st r1 _ h1]
  exact ⟨rfl, rfl, rfl⟩

/-- C6 in a state whose ship type "fighter" was left by an earlier SelectShip. -/
theorem level_six_overrides_ship_type_witness :
    dispatch
        (ParseTVSLog.step sampleConstructors ⟨⟨"Alice", "fighter", 5⟩, [], []⟩
          ["t", "s", "Alice", "Achieved level 6", "6", ""]).parserState
        ["t", "s", "Alice", "Alice attacked Bob for 10", "", ""]
      = .Attack ["t", "s", "Alice", "Alice attacked Bob for 10", "", ""]
          "Alice" "cruiser/carrier" 6 :=
  (level_six_overrides_ship_type sampleConstructors ⟨⟨"Alice", "fighter", 5⟩, [], []⟩
    ["t", "s", "Alice", "Achieved level 6", "6", ""]
    ["t", "s", "Alice", "Alice attacked Bob for 10", "", ""]
    (by decide) (by decide) (by decide) (by decide)).2.1

/-- C7: in one run of the loop, after a record that produces Added with pilot
name `X`, and after any further records `mid` none of which produces an action
of tag Added (they may be ignorable, failing, or produce other actions), the parser
state holds pilot name `X`, and every record then dispatched to the Attack or
to the Repair constructor has it called with pilotName `X`. -/
theorem pilot_name_propagates (c : Constructors) (st : LoopState) (r0 : List String)
    (X : String) (mid : List (List String))
    (h0 : NewActionFromCSVRecord c st.parserState r0 = (some (.Added X), none))
    (hmid : ∀ i, i < mid.length →
      (producedAt c (ParseTVSLog.step c st r0).parserState mid i).map Action.ActionType
        ≠ some .Added) :
    (processRecords c (ParseTVSLog.step c st r0) mid).parserState.pilotName = X
      ∧ ∀ r rec p, (∀ t l,
            dispatch (processRecords c (ParseTVSLog.step c st r0) mid).parserState r
              = .Attack rec p t l → p = X)
          ∧ (∀ l,
            dispatch (processRecords c (ParseTVSLog.step c st r0) mid).parserState r
              = .Repair rec p l → p = X) := by
  have hX : (processRecords c (ParseTVSLog.step c st r0) mid).parserState.pilotName
      = X := by
    rw [processRecords_pilotName c mid _ hmid, step_of_action c st r0 _ h0]
    rfl
  refine ⟨hX, ?_⟩
  intro r rec p
  constructor
  · intro t l h
    rw [(dispatch_attack_args _ _ _ _ _ _ h).2.1, hX]
  · intro l h
    rw [(dispatch_repair_args _ _ _ _ _ h).2.1, hX]

/-- C7 with an ignorable, a failing and a SelectShip record between the Added
record of "Alice" and a repair record. -/
theorem pilot_name_propagates_witness :
    (processRecords sampleConstructors
        (ParseTVSLog.step sampleConstructors LoopState.initial
          ["t", "s", "Alice", "Added to the game", "", ""])
        [["t", "s", "", "Entered carrier", "", ""],
         ["t", "s", "", "unknown frobnicated", "", ""],
         ["t", "s", "", "Selected to pilot a fighter", "fighter", ""]]).parserState.pilotName
        = "Alice"
      ∧ dispatch
          (processRecords sampleConstructors
            (ParseTVSLog.step sampleConstructors LoopState.initial
              ["t", "s", "Alice", "Added to the game", "", ""])
            [["t", "s", "", "Entered carrier", "", ""],
             ["t", "s", "", "unknown frobnicated", "", ""],
             ["t", "s", "", "Selected to pilot a fighter", "fighter", ""]]).parserState
          ["t", "s", "", "Bob repaired", "", ""]
        = .Repair ["t", "s", "", "Bob repaired", "", ""] "Alice" 0 :=
  ⟨(pilot_name_propagates sampleConstructors LoopState.initial
      ["t", "s", "Alice", "Added to the game", "", ""] "Alice"
      [["t", "s", "", "Entered carrier", "", ""],
       ["t", "s", "", "unknown frobnicated", "", ""],
       ["t", "s", "", "Selected to pilot a fighter", "fighter", ""]]
      (by decide) (by decide)).1,
   by decide⟩

/-- C8: when the heading line and all records are read without failure,
`ParseTVSLog` returns no error and exactly the list, in record order, of the
actions constructed for the records whose classification (in the state reached
by the records before them) returned an action and no error; its length is at
most the number of records. -/
theorem output_is_produced_actions (c : Constructors) (header : List String)
    (rows : List (List String)) :
    (ParseTVSLog c (.record header :: rows.map ReadOutcome.record)).err = none
      ∧ (ParseTVSLog c (.record header :: rows.map ReadOutcome.record)).actions
          = some ((List.range rows.length).filterMap (producedAt c parserState.zero rows))
      ∧ ((List.range rows.length).filterMap (producedAt c parserState.zero rows)).length
          ≤ rows.length := by
  rw [ParseTVSLog_records]
  refine ⟨rfl, rfl, ?_⟩
  have := List.length_filterMap_le (producedAt c parserState.zero rows)
    (List.range rows.length)
  rwa [List.length_range] at this

/-- C8 on a log of an Added, an ignorable, a failing and an attack record. -/
theorem output_is_produced_actions_witness :
    (ParseTVSLog sampleConstructors
        [.record ["time", "sector", "pilot", "action", "detail", "score"],
         .record ["t", "s", "Alice", "Added to the game", "", ""],
         .record ["t", "s", "", "Exited carrier", "", ""],
         .record ["t", "s", "", "Achieved level x", "x", ""],
         .record ["t", "s", "", "Alice attacked Bob", "", ""]]).actions
      = some [.Added "Alice",
          .Attack "Alice" "" 0 ["t", "s", "", "Alice attacked Bob", "", ""]] :=
  ((output_is_produced_actions sampleConstructors
      ["time", "sector", "pilot", "action", "detail", "score"]
      [["t", "s", "Alice", "Added to the game", "", ""],
       ["t", "s", "", "Exited carrier", "", ""],
       ["t", "s", "", "Achieved level x", "x", ""],
       ["t", "s", "", "Alice attacked Bob", "", ""]]).2.1).trans (by decide)

/-- C9, amended: a record the reader delivers whose classification fails
(unrecognized description, constructor error, or a field count other than 6)
leaves parser state and actions as they were; for every input whose records all
have the field count of the heading line, so that the reader reports no read
failure, `ParseTVSLog` returns no error and the same actions as on the input
without its failing records (in which no record fails); and when some record
fails, the returned sequence is strictly shorter than the number of records. -/
theorem delivered_failing_records_are_skipped (c : Constructors) (header : List String)
    (rows : List (List String)) (hcount : ∀ r ∈ rows, r.length = header.length) :
    hasReadFailure (csvRead (header :: rows)) = false
      ∧ (∀ (st : LoopState) (r : List String),
          (NewActionFromCSVRecord c st.parserState r).2.isSome = true →
          (ParseTVSLog.step c st r).parserState = st.parserState
            ∧ (ParseTVSLog.step c st r).actions = st.actions)
      ∧ (ParseTVSLog c (csvRead (header :: rows))).err = none
      ∧ (ParseTVSLog c (csvRead (header :: rows))).actions
          = (ParseTVSLog c
              (csvRead (header :: withoutFailing c parserState.zero rows))).actions
      ∧ (∀ j, failsAt c parserState.zero (withoutFailing c parserState.zero rows) j = false)
      ∧ ∃ acts, (ParseTVSLog c (csvRead (header :: rows))).actions = some acts
          ∧ ((∃ i, i < rows.length ∧ failsAt c parserState.zero rows i = true) →
              acts.length < rows.length) := by
  have hrows := csvRead_of_same_count header rows hcount
  have hwf := csvRead_of_same_count header (withoutFailing c parserState.zero rows)
    (fun r hr => hcount r (mem_of_mem_withoutFailing c _ rows r hr))
  rw [hrows, hwf]
  refine ⟨?_, ?_, ?_, ?_, failsAt_withoutFailing c rows parserState.zero, ?_⟩
  · exact hasReadFailure_map_record (header :: rows)
  · intro st r h
    rw [step_parserState, nextState_of_error c _ r h]
    refine ⟨rfl, ?_⟩
    rw [step_actions c st r [], producedAt_of_failsAt c st.parserState [r] 0
      ((failsAt_zero c _ r []).trans h)]
    simp
  · rw [ParseTVSLog_records]
  · rw [ParseTVSLog_records, ParseTVSLog_records, producedActions_withoutFailing]
  · rw [ParseTVSLog_records]
    refine ⟨_, rfl, ?_⟩
    rintro ⟨i, hi, hf⟩
    have := length_filterMap_lt (producedAt c parserState.zero rows)
      (List.range rows.length)
      ⟨i, List.mem_range.2 hi, producedAt_of_failsAt c _ rows i hf⟩
    rwa [List.length_range] at this

/-- C9, amended, on a log of 6-field lines whose second record has an
unrecognized description and whose third makes the LevelUp constructor fail:
the output is that of the log without them and is shorter than the four
records. -/
theorem delivered_failing_records_are_skipped_witness :
    withoutFailing sampleConstructors parserState.zero
        [["t1", "s", "Alice", "Added to the game", "", ""],
         ["t2", "s", "Alice", "unknown frobnicated", "", ""],
         ["t3", "s", "Alice", "Achieved level x", "x", ""],
         ["t4", "s", "Alice", "Alice attacked Bob", "", ""]]
      = [["t1", "s", "Alice", "Added to the game", "", ""],
         ["t4", "s", "Alice", "Alice attacked Bob", "", ""]]
    ∧ (ParseTVSLog sampleConstructors
        (csvRead
          [["time", "sector", "pilot", "action", "detail", "score"],
           ["t1", "s", "Alice", "Added to the game", "", ""],
           ["t2", "s", "Alice", "unknown frobnicated", "", ""],
           ["t3", "s", "Alice", "Achieved level x", "x", ""],
           ["t4", "s", "Alice", "Alice attacked Bob", "", ""]])).actions
      = some [.Added "Alice",
          .Attack "Alice" "" 0 ["t4", "s", "Alice", "Alice attacked Bob", "", ""]]
    ∧ ∃ acts, (ParseTVSLog sampleConstructors
        (csvRead
          [["time", "sector", "pilot", "action", "detail", "score"],
           ["t1", "s", "Alice", "Added to the game", "", ""],
           ["t2", "s", "Alice", "unknown frobnicated", "", ""],
           ["t3", "s", "Alice", "Achieved level x", "x", ""],
           ["t4", "s", "Alice", "Alice attacked Bob", "", ""]])).actions = some acts
        ∧ acts.length < 4 :=
  ⟨by decide,
   ((delivered_failing_records_are_skipped sampleConstructors
      ["time", "sector", "pilot", "action", "detail", "score"]
      [["t1", "s", "Alice", "Added to the game", "", ""],
       ["t2", "s", "Alice", "unknown frobnicated", "", ""],
       ["t3", "s", "Alice", "Achieved level x", "x", ""],
       ["t4", "s", "Alice", "Alice attacked Bob", "", ""]]
      (by decide)).2.2.2.1).trans (by decide),
   (delivered_failing_records_are_skipped sampleConstructors
      ["time", "sector", "pilot", "action", "detail", "score"]
      [["t1", "s", "Alice", "Added to the game", "", ""],
       ["t2", "s", "Alice", "unknown frobnicated", "", ""],
       ["t3", "s", "Alice", "Achieved level x", "x", ""],
       ["t4", "s", "Alice", "Alice attacked Bob", "", ""]]
      (by decide)).2.2.2.2.2.imp
     (fun _ h => ⟨h.1, h.2 ⟨1, by decide, by decide⟩⟩)⟩

/-- C9 as stated fails: in a log with a heading line of 6 fields, the record
with 3 fields is one whose classification fails for its field count, and yet
the run is aborted at it: the reader reports it as a read failure, and
`ParseTVSLog` returns the nil slice and an error instead of the actions of the
other records. -/
theorem differing_field_count_aborts_counterexample :
    (NewActionFromCSVRecord sampleConstructors ⟨"Alice", "", 0⟩ ["t2", "s", "Alice"]).2
        = some (.unexpectedRecordLen 3)
      ∧ csvRead
          [["time", "sector", "pilot", "action", "detail", "score"],
           ["t1", "s", "Alice", "Added to the game", "", ""],
           ["t2", "s", "Alice"],
           ["t3", "s", "Alice", "Alice attacked Bob", "", ""]]
        = [.record ["time", "sector", "pilot", "action", "detail", "score"],
           .record ["t1", "s", "Alice", "Added to the game", "", ""],
           .failure "wrong number of fields",
           .record ["t3", "s", "Alice", "Alice attacked Bob", "", ""]]
      ∧ (ParseTVSLog sampleConstructors
          (csvRead
            [["time", "sector", "pilot", "action", "detail", "score"],
             ["t1", "s", "Alice", "Added to the game", "", ""],
             ["t2", "s", "Alice"],
             ["t3", "s", "Alice", "Alice attacked Bob", "", ""]])).actions = none
      ∧ (ParseTVSLog sampleConstructors
          (csvRead
            [["time", "sector", "pilot", "action", "detail", "score"],
             ["t1", "s", "Alice", "Added to the game", "", ""],
             ["t2", "s", "Alice"],
             ["t3", "s", "Alice", "Alice attacked Bob", "", ""]])).err
        = some (.failedToParse (.other "wrong number of fields"))
      ∧ (ParseTVSLog sampleConstructors
          (csvRead
            [["time", "sector", "pilot", "action", "detail", "score"],
             ["t1", "s", "Alice", "Added to the game", "", ""],
             ["t3", "s", "Alice", "Alice attacked Bob", "", ""]])).actions
        = some [.Added "Alice",
            .Attack "Alice" "" 0 ["t3", "s", "Alice", "Alice attacked Bob", "", ""]] := by
  decide

/-- C10: for a heading line followed by five 6-field records with descriptions
"Added to the game", "Selected to pilot a fighter", "X attacked Y for 10",
"Entered carrier" and "unknown frobnicated", the constructors succeeding on the
first three (Added with pilot "Alice", SelectShip "fighter", an Attack action),
`ParseTVSLog` returns no error and exactly these three actions in that order,
and logs exactly one error, the not-implemented error for the fifth record. -/
theorem end_to_end_example (c : Constructors) (header r1 r2 r3 r4 r5 : List String)
    (p t : String) (l : Int) (f : List String)
    (h1 : r1.length = 6) (d1 : description r1 = "Added to the game")
    (h2 : r2.length = 6) (d2 : description r2 = "Selected to pilot a fighter")
    (h3 : r3.length = 6) (d3 : description r3 = "X attacked Y for 10")
    (h4 : r4.length = 6) (d4 : description r4 = "Entered carrier")
    (h5 : r5.length = 6) (d5 : description r5 = "unknown frobnicated")
    (hA : c.AddedFromCSVRecord r1 = (some (.Added "Alice"), none))
    (hS : c.SelectShipFromCSVRecord r2 = (some (.SelectShip "fighter"), none))
    (hK : c.AttackFromCSVRecord r3 "Alice" "fighter" 0 = (some (.Attack p t l f), none)) :
    ParseTVSLog c
        [.record header, .record r1, .record r2, .record r3, .record r4, .record r5]
      = { actions := some [.Added "Alice", .SelectShip "fighter", .Attack p t l f],
          err := none,
          logged := [(r5, .notImplemented)] } := by
  have e1 : ∀ ps, dispatch ps r1 = .Added r1 := by
    intro ps
    rw [dispatch_eq_spec, Spec.dispatch, if_neg (not_not.mpr h1), d1]
    rfl
  have e2 : ∀ ps, dispatch ps r2 = .SelectShip r2 := by
    intro ps
    rw [dispatch_eq_spec, Spec.dispatch, if_neg (not_not.mpr h2), d2]
    rfl
  have e3 : ∀ ps, dispatch ps r3
      = .Attack r3 ps.pilotName ps.currentShipType ps.currentShipLevel := by
    intro ps
    rw [dispatch_eq_spec, Spec.dispatch, if_neg (not_not.mpr h3), d3]
    rfl
  have e4 : ∀ ps, dispatch ps r4 = .ignored := by
    intro ps
    rw [dispatch_eq_spec, Spec.dispatch, if_neg (not_not.mpr h4), d4]
    rfl
  have e5 : ∀ ps, dispatch ps r5 = .notImplemented := by
    intro ps
    rw [dispatch_eq_spec, Spec.dispatch, if_neg (not_not.mpr h5), d5]
    rfl
  simp [ParseTVSLog, ParseTVSLog.loop, ParseTVSLog.step, NewActionFromCSVRecord,
    Dispatch.run, liftResult, updateState, Action.ActionType, LoopState.initial,
    parserState.zero, e1, e2, e3, e4, e5, hA, hS, hK]

/-- C10 with the sample constructors. -/
theorem end_to_end_example_witness :
    ParseTVSLog sampleConstructors
        [.record ["time", "sector", "pilot", "action", "detail", "score"],
         .record ["t1", "s", "Alice", "Added to the game", "", ""],
         .record ["t2", "s", "Alice", "Selected to pilot a fighter", "fighter", ""],
         .record ["t3", "s", "Alice", "X attacked Y for 10", "10", ""],
         .record ["t4", "s", "Alice", "Entered carrier", "", ""],
         .record ["t5", "s", "Alice", "unknown frobnicated", "", ""]]
      = { actions := some [.Added "Alice", .SelectShip "fighter",
            .Attack "Alice" "fighter" 0 ["t3", "s", "Alice", "X attacked Y for 10", "10", ""]],
          err := none,
          logged := [(["t5", "s", "Alice", "unknown frobnicated", "", ""], .notImplemented)] } :=
  end_to_end_example sampleConstructors _ _ _ _ _ _ _ _ _ _
    (by decide) (by decide) (by decide) (by decide) (by decide) (by decide)
    (by decide) (by decide) (by decide) (by decide) (by decide) (by decide) (by decide)

/-! ## Further lemmas -/

theorem processRecords_two (c : Constructors) (st : LoopState) (r1 r2 : List String)
    (a1 a2 : Action)
    (h1 : NewActionFromCSVRecord c st.parserState r1 = (some a1, none))
    (h2 : NewActionFromCSVRecord c (updateState st.parserState a1) r2 = (some a2, none)) :
    (processRecords c st [r1, r2]).parserState
      = updateState (updateState st.parserState a1) a2 := by
  rw [processRecords_cons, processRecords_cons, step_of_action c st r1 a1 h1,
    step_of_action c
      { parserState := updateState st.parserState a1, actions := st.actions ++ [a1],
        logged := st.logged } r2 a2 h2]
  rfl

theorem loop_failure (c : Constructors) (pre : List (List String)) (msg : String)
    (rest : List ReadOutcome) :
    ∀ st : LoopState,
      ParseTVSLog.loop c st (pre.map ReadOutcome.record ++ .failure msg :: rest)
        = { actions := none, err := some (.failedToParse (.other msg)),
            logged := (processRecords c st pre).logged } := by
  induction pre with
  | nil => intro st; rfl
  | cons r rows ih =>
    intro st
    rw [List.map_cons, List.cons_append, ParseTVSLog.loop, ih, processRecords_cons]

theorem loop_no_failure (c : Constructors) (reads : List ReadOutcome) :
    ∀ st : LoopState, hasReadFailure reads = false →
      (ParseTVSLog.loop c st reads).err = none
        ∧ ∃ acts, (ParseTVSLog.loop c st reads).actions = some acts := by
  induction reads with
  | nil => intro st _; exact ⟨rfl, _, rfl⟩
  | cons o rest ih =>
    intro st h
    cases o with
    | failure msg => simp [hasReadFailure, ReadOutcome.isFailure] at h
    | record r =>
      rw [ParseTVSLog.loop]
      apply ih
      simpa [hasReadFailure, ReadOutcome.isFailure] using h

theorem updateState_of_other_tag (ps : parserState) (a : Action)
    (hA : a.ActionType ≠ .Added) (hS : a.ActionType ≠ .SelectShip)
    (hL : a.ActionType ≠ .LevelUp) : updateState ps a = ps := by
  cases a with
  | Added p => exact absurd rfl hA
  | SelectShip t => exact absurd rfl hS
  | LevelUp l => exact absurd rfl hL
  | _ => rfl

theorem spec_dispatch_branch (ps1 ps2 : parserState) (r1 r2 : List String)
    (h1 : r1.length = 6) (h2 : r2.length = 6) (hd : description r1 = description r2) :
    (Spec.dispatch ps1 r1).branch = (Spec.dispatch ps2 r2).branch := by
  unfold Spec.dispatch
  rw [if_neg (not_not.mpr h1), if_neg (not_not.mpr h2), hd]
  cases Spec.isIgnorable (description r2) with
  | true => rfl
  | false =>
    simp only [Bool.false_eq_true, if_false]
    cases Spec.firstMatch (description r2) with
    | none => rfl
    | some p =>
      cases p <;> try rfl
      dsimp only
      cases description r2 == "Self repaired" <;> rfl

theorem isIgnorable_of_exact_with_suffix (s suffix : String) (hs : s ∈ ignoredExact)
    (hsuf : suffix ≠ "") : Spec.isIgnorable (s ++ suffix) = false := by
  obtain ⟨l⟩ := suffix
  cases l with
  | nil => exact absurd rfl hsuf
  | cons ch l' =>
    simp only [ignoredExact, List.mem_cons, List.mem_singleton, List.not_mem_nil,
      or_false] at hs
    rcases hs with rfl | rfl | rfl | rfl | rfl <;> rfl

/-! ## The claims, continued -/

/-- C11, amended: from the zero state, for a record `r1` producing Added with
pilot name "Alice", a record `r2` producing SelectShip with ship type "fighter",
and a 6-field record `r3` dispatched to Attack (no ignore pattern, first matching
pattern `contains "attacked"`), processing `r1`, `r2`, `r3` in this order calls
the Attack constructor for `r3` with pilotName "Alice", shipType "fighter" and
shipLevel 0. -/
theorem attack_context_after_added_and_select (c : Constructors)
    (r1 r2 r3 : List String)
    (h1 : NewActionFromCSVRecord c parserState.zero r1 = (some (.Added "Alice"), none))
    (h2 : NewActionFromCSVRecord c ⟨"Alice", "", 0⟩ r2
      = (some (.SelectShip "fighter"), none))
    (hlen : r3.length = 6) (hign : Spec.isIgnorable (description r3) = false)
    (hfm : Spec.firstMatch (description r3) = some .Attack) :
    dispatch (processRecords c LoopState.initial [r1, r2]).parserState r3
        = .Attack r3 "Alice" "fighter" 0
      ∧ NewActionFromCSVRecord c
          (processRecords c LoopState.initial [r1, r2]).parserState r3
        = liftResult (c.AttackFromCSVRecord r3 "Alice" "fighter" 0) := by
  have hs : (processRecords c LoopState.initial [r1, r2]).parserState
      = ⟨"Alice", "fighter", 0⟩ := by
    rw [processRecords_two c LoopState.initial r1 r2 _ _ h1 h2]
    rfl
  have hd := dispatch_of_firstMatch_attack
    (processRecords c LoopState.initial [r1, r2]).parserState r3 hlen hign hfm
  rw [NewActionFromCSVRecord, hd, hs]
  exact ⟨rfl, rfl⟩

/-- C11, amended, on three concrete records. -/
theorem attack_context_after_added_and_select_witness :
    dispatch
        (processRecords sampleConstructors LoopState.initial
          [["t1", "s", "Alice", "Added to the game", "", ""],
           ["t2", "s", "Alice", "Selected to pilot a fighter", "fighter", ""]]).parserState
        ["t3", "s", "Alice", "X attacked Y for 10", "10", ""]
      = .Attack ["t3", "s", "Alice", "X attacked Y for 10", "10", ""] "Alice" "fighter" 0 :=
  (attack_context_after_added_and_select sampleConstructors
    ["t1", "s", "Alice", "Added to the game", "", ""]
    ["t2", "s", "Alice", "Selected to pilot a fighter", "fighter", ""]
    ["t3", "s", "Alice", "X attacked Y for 10", "10", ""]
    (by decide) (by decide) (by decide) (by decide) (by decide)).1

/-- C11 as stated fails: `r1` produces Added "Alice", `r2` produces SelectShip
"fighter", the description "Pickup attacked" of `r3` contains "attacked", and
yet processing `r1`, `r2`, `r3` calls the Pickup constructor for `r3`, not the
Attack constructor. -/
theorem attack_context_counterexample :
    NewActionFromCSVRecord sampleConstructors parserState.zero
        ["t1", "s", "Alice", "Added to the game", "", ""]
      = (some (.Added "Alice"), none)
    ∧ NewActionFromCSVRecord sampleConstructors ⟨"Alice", "", 0⟩
        ["t2", "s", "Alice", "Selected to pilot a fighter", "fighter", ""]
      = (some (.SelectShip "fighter"), none)
    ∧ containsStr (description ["t3", "s", "Alice", "Pickup attacked", "", ""]) "attacked"
      = true
    ∧ dispatch
        (processRecords sampleConstructors LoopState.initial
          [["t1", "s", "Alice", "Added to the game", "", ""],
           ["t2", "s", "Alice", "Selected to pilot a fighter", "fighter", ""]]).parserState
        ["t3", "s", "Alice", "Pickup attacked", "", ""]
      = .Pickup ["t3", "s", "Alice", "Pickup attacked", "", ""]
    ∧ dispatch
        (processRecords sampleConstructors LoopState.initial
          [["t1", "s", "Alice", "Added to the game", "", ""],
           ["t2", "s", "Alice", "Selected to pilot a fighter", "fighter", ""]]).parserState
        ["t3", "s", "Alice", "Pickup attacked", "", ""]
      ≠ .Attack ["t3", "s", "Alice", "Pickup attacked", "", ""] "Alice" "fighter" 0 := by
  decide

/-- C12, amended: for `r1` producing Added "Alice", `r2` producing SelectShip
"fighter" (in either order) and a 6-field record `r3` dispatched to Attack,
reversing the arrival order of `r1` and `r2` does not change the context: in
both orders the Attack constructor is called for `r3` with pilotName "Alice",
shipType "fighter" and shipLevel 0.  The context does depend on where `r3`
stands: processed first, it is given the empty pilot name and ship type. -/
theorem attack_context_order_independent (c : Constructors) (r1 r2 r3 : List String)
    (h1 : NewActionFromCSVRecord c parserState.zero r1 = (some (.Added "Alice"), none))
    (h2 : NewActionFromCSVRecord c ⟨"Alice", "", 0⟩ r2
      = (some (.SelectShip "fighter"), none))
    (h2r : NewActionFromCSVRecord c parserState.zero r2
      = (some (.SelectShip "fighter"), none))
    (h1r : NewActionFromCSVRecord c ⟨"", "fighter", 0⟩ r1 = (some (.Added "Alice"), none))
    (hlen : r3.length = 6) (hign : Spec.isIgnorable (description r3) = false)
    (hfm : Spec.firstMatch (description r3) = some .Attack) :
    dispatch (processRecords c LoopState.initial [r2, r1]).parserState r3
        = dispatch (processRecords c LoopState.initial [r1, r2]).parserState r3
      ∧ dispatch (processRecords c LoopState.initial [r2, r1]).parserState r3
        = .Attack r3 "Alice" "fighter" 0
      ∧ dispatch (processRecords c LoopState.initial []).parserState r3
        = .Attack r3 "" "" 0 := by
  have hs : (processRecords c LoopState.initial [r1, r2]).parserState
      = ⟨"Alice", "fighter", 0⟩ := by
    rw [processRecords_two c LoopState.initial r1 r2 _ _ h1 h2]
    rfl
  have hr : (processRecords c LoopState.initial [r2, r1]).parserState
      = ⟨"Alice", "fighter", 0⟩ := by
    rw [processRecords_two c LoopState.initial r2 r1 _ _ h2r h1r]
    rfl
  rw [hs, hr, dispatch_of_firstMatch_attack _ r3 hlen hign hfm,
    dispatch_of_firstMatch_attack _ r3 hlen hign hfm]
  exact ⟨rfl, rfl, rfl⟩

/-- C12, amended, on three concrete records. -/
theorem attack_context_order_independent_witness :
    dispatch
        (processRecords sampleConstructors LoopState.initial
          [["t2", "s", "Alice", "Selected to pilot a fighter", "fighter", ""],
           ["t1", "s", "Alice", "Added to the game", "", ""]]).parserState
        ["t3", "s", "Alice", "X attacked Y for 10", "10", ""]
      = .Attack ["t3", "s", "Alice", "X attacked Y for 10", "10", ""] "Alice" "fighter" 0 :=
  (attack_context_order_independent sampleConstructors
    ["t1", "s", "Alice", "Added to the game", "", ""]
    ["t2", "s", "Alice", "Selected to pilot a fighter", "fighter", ""]
    ["t3", "s", "Alice", "X attacked Y for 10", "10", ""]
    (by decide) (by decide) (by decide) (by decide) (by decide) (by decide)
    (by decide)).2.1

/-- C12 as stated fails: with `r1` producing Added "Alice", `r2` producing
SelectShip "fighter" and the attack record `r3`, the Attack constructor is
called for `r3` with the same pilot name and ship type whether `r1`, `r2` or
`r2`, `r1` were processed before it. -/
theorem attack_context_reversal_counterexample :
    dispatch
        (processRecords sampleConstructors LoopState.initial
          [["t1", "s", "Alice", "Added to the game", "", ""],
           ["t2", "s", "Alice", "Selected to pilot a fighter", "fighter", ""]]).parserState
        ["t3", "s", "Alice", "X attacked Y for 10", "10", ""]
      = .Attack ["t3", "s", "Alice", "X attacked Y for 10", "10", ""] "Alice" "fighter" 0
    ∧ dispatch
        (processRecords sampleConstructors LoopState.initial
          [["t2", "s", "Alice", "Selected to pilot a fighter", "fighter", ""],
           ["t1", "s", "Alice", "Added to the game", "", ""]]).parserState
        ["t3", "s", "Alice", "X attacked Y for 10", "10", ""]
      = .Attack ["t3", "s", "Alice", "X attacked Y for 10", "10", ""] "Alice" "fighter" 0
    ∧ (processRecords sampleConstructors LoopState.initial
          [["t1", "s", "Alice", "Added to the game", "", ""],
           ["t2", "s", "Alice", "Selected to pilot a fighter", "fighter", ""]]).actions
      = [.Added "Alice", .SelectShip "fighter"]
    ∧ (processRecords sampleConstructors LoopState.initial
          [["t2", "s", "Alice", "Selected to pilot a fighter", "fighter", ""],
           ["t1", "s", "Alice", "Added to the game", "", ""]]).actions
      = [.SelectShip "fighter", .Added "Alice"] := by
  decide

/-- C13, amended: for 6-field records whose description matches no ignore
pattern and no recognized pattern, the error returned is the fixed
not-implemented error, the same for any two such records and states whatever
their descriptions; the record reaches the diagnostics through the line the
loop body logs, which pairs the record with that error. -/
theorem not_implemented_error_is_generic (c : Constructors) (ps1 ps2 : parserState)
    (st : LoopState) (r1 r2 : List String)
    (h1 : r1.length = 6 ∧ Spec.isIgnorable (description r1) = false
      ∧ Spec.isRecognized (description r1) = false)
    (h2 : r2.length = 6 ∧ Spec.isIgnorable (description r2) = false
      ∧ Spec.isRecognized (description r2) = false) :
    NewActionFromCSVRecord c ps1 r1 = (none, some .notImplemented)
      ∧ NewActionFromCSVRecord c ps1 r1 = NewActionFromCSVRecord c ps2 r2
      ∧ (ParseTVSLog.step c st r1).logged = st.logged ++ [(r1, .notImplemented)] := by
  have e1 : ∀ ps, NewActionFromCSVRecord c ps r1 = (none, some .notImplemented) := by
    intro ps
    rw [NewActionFromCSVRecord, (dispatch_notImplemented_iff ps r1).2 h1]
    rfl
  have e2 : NewActionFromCSVRecord c ps2 r2 = (none, some .notImplemented) := by
    rw [NewActionFromCSVRecord, (dispatch_notImplemented_iff ps2 r2).2 h2]
    rfl
  refine ⟨e1 ps1, by rw [e1 ps1, e2], ?_⟩
  rw [step_of_error c st r1 none .notImplemented (e1 st.parserState)]

/-- C13, amended, at the descriptions "unknown frobnicated" and "mystery event". -/
theorem not_implemented_error_is_generic_witness :
    NewActionFromCSVRecord sampleConstructors parserState.zero
        ["t", "s", "Alice", "unknown frobnicated", "", ""]
      = NewActionFromCSVRecord sampleConstructors ⟨"Alice", "fighter", 2⟩
        ["t", "s", "Alice", "mystery event", "", ""] :=
  (not_implemented_error_is_generic sampleConstructors parserState.zero
    ⟨"Alice", "fighter", 2⟩ LoopState.initial
    ["t", "s", "Alice", "unknown frobnicated", "", ""]
    ["t", "s", "Alice", "mystery event", "", ""]
    ⟨by decide, by decide, by decide⟩ ⟨by decide, by decide, by decide⟩).2.1

/-- C13 as stated fails: the records with descriptions "unknown frobnicated" and
"mystery event" match no pattern, their descriptions differ, and the errors
returned for them are equal; hence no function recovers the description from
the error value. -/
theorem not_implemented_error_counterexample :
    Spec.isIgnorable "unknown frobnicated" = false
      ∧ Spec.isRecognized "unknown frobnicated" = false
      ∧ Spec.isIgnorable "mystery event" = false
      ∧ Spec.isRecognized "mystery event" = false
      ∧ description ["t", "s", "Alice", "unknown frobnicated", "", ""]
          ≠ description ["t", "s", "Alice", "mystery event", "", ""]
      ∧ (NewActionFromCSVRecord sampleConstructors parserState.zero
          ["t", "s", "Alice", "unknown frobnicated", "", ""]).2
          = (NewActionFromCSVRecord sampleConstructors parserState.zero
              ["t", "s", "Alice", "mystery event", "", ""]).2
      ∧ ¬ ∃ recover : RecordError → String,
          ∀ r : List String, r.length = 6 → Spec.isIgnorable (description r) = false →
            Spec.isRecognized (description r) = false →
            ∀ e, (NewActionFromCSVRecord sampleConstructors parserState.zero r).2 = some e →
              recover e = description r := by
  refine ⟨by decide, by decide, by decide, by decide, by decide, by decide, ?_⟩
  rintro ⟨recover, h⟩
  have ha := h ["t", "s", "Alice", "unknown frobnicated", "", ""] (by decide) (by decide)
    (by decide) .notImplemented (by decide)
  have hb := h ["t", "s", "Alice", "mystery event", "", ""] (by decide) (by decide)
    (by decide) .notImplemented (by decide)
  rw [ha] at hb
  exact absurd hb (by decide)

/-- C14, amended: when a read reports a failure, on the heading line or after
any number of records, `ParseTVSLog` returns the error wrapping that failure and
the nil slice, whatever the records before it produced and whatever would
follow; when no read reports a failure and the heading line is present, it
returns a slice and no error. -/
theorem read_failure_is_fatal (c : Constructors) :
    (∀ (pre : List (List String)) (msg : String) (rest : List ReadOutcome),
        (ParseTVSLog c (pre.map ReadOutcome.record ++ .failure msg :: rest)).actions = none
          ∧ (ParseTVSLog c (pre.map ReadOutcome.record ++ .failure msg :: rest)).err
              = some (.failedToParse (.other msg)))
      ∧ (∀ reads : List ReadOutcome, hasReadFailure reads = false → reads ≠ [] →
          (ParseTVSLog c reads).err = none
            ∧ ∃ acts, (ParseTVSLog c reads).actions = some acts) := by
  constructor
  · intro pre msg rest
    cases pre with
    | nil => exact ⟨rfl, rfl⟩
    | cons header rows =>
      rw [List.map_cons, List.cons_append, ParseTVSLog, loop_failure]
      exact ⟨rfl, rfl⟩
  · intro reads h hne
    cases reads with
    | nil => exact absurd rfl hne
    | cons o rest =>
      cases o with
      | failure msg => simp [hasReadFailure, ReadOutcome.isFailure] at h
      | record header =>
        rw [ParseTVSLog]
        apply loop_no_failure
        simpa [hasReadFailure, ReadOutcome.isFailure] using h

/-- C14, amended, on a log whose third read fails after an Added record, and on
a log read without failure. -/
theorem read_failure_is_fatal_witness :
    ((ParseTVSLog sampleConstructors
        [.record ["time", "sector", "pilot", "action", "detail", "score"],
         .record ["t1", "s", "Alice", "Added to the game", "", ""],
         .failure "bare quote in field",
         .record ["t3", "s", "Alice", "X attacked Y for 10", "10", ""]]).actions = none
      ∧ (ParseTVSLog sampleConstructors
        [.record ["time", "sector", "pilot", "action", "detail", "score"],
         .record ["t1", "s", "Alice", "Added to the game", "", ""],
         .failure "bare quote in field",
         .record ["t3", "s", "Alice", "X attacked Y for 10", "10", ""]]).err
        = some (.failedToParse (.other "bare quote in field")))
    ∧ (ParseTVSLog sampleConstructors
        [.record ["time", "sector", "pilot", "action", "detail", "score"],
         .record ["t1", "s", "Alice", "Added to the game", "", ""]]).err = none :=
  ⟨(read_failure_is_fatal sampleConstructors).1
      [["time", "sector", "pilot", "action", "detail", "score"],
       ["t1", "s", "Alice", "Added to the game", "", ""]]
      "bare quote in field"
      [.record ["t3", "s", "Alice", "X attacked Y for 10", "10", ""]],
   ((read_failure_is_fatal sampleConstructors).2
      [.record ["time", "sector", "pilot", "action", "detail", "score"],
       .record ["t1", "s", "Alice", "Added to the game", "", ""]]
      (by decide) (by decide)).1⟩

/-- C14 as stated fails: on the empty input no read reports a failure (the first
read is at the end of the input), and yet `ParseTVSLog` returns an error and the
nil slice. -/
theorem read_failure_counterexample :
    hasReadFailure [] = false
      ∧ (ParseTVSLog sampleConstructors []).err = some (.failedToParse .EOF)
      ∧ (ParseTVSLog sampleConstructors []).actions = none := by
  decide

/-- C15: for a 6-field record whose description matches no ignore pattern and
whose first matching recognized pattern is `contains "repaired"` (so none of
the earlier ones matches): if the description is exactly "Self repaired" the
SelfRepair constructor is called with the record alone; otherwise the Repair
constructor is called with the record, the state's pilotName and its
currentShipLevel, and the ship type of the state has no influence. -/
theorem repaired_dispatch (c : Constructors) (ps : parserState) (record : List String)
    (hlen : record.length = 6) (hign : Spec.isIgnorable (description record) = false)
    (hfm : Spec.firstMatch (description record) = some .Repaired) :
    containsStr (description record) "repaired" = true
      ∧ (description record = "Self repaired" →
          dispatch ps record = .SelfRep record
            ∧ NewActionFromCSVRecord c ps record
                = liftResult (c.SelfRepFromCSVRecord record))
      ∧ (description record ≠ "Self repaired" →
          dispatch ps record = .Repair record ps.pilotName ps.currentShipLevel
            ∧ NewActionFromCSVRecord c ps record
                = liftResult (c.RepairFromCSVRecord record ps.pilotName ps.currentShipLevel))
      ∧ (∀ t, dispatch ⟨ps.pilotName, t, ps.currentShipLevel⟩ record = dispatch ps record) := by
  have hd : ∀ q : parserState, dispatch q record
      = if description record == "Self repaired" then .SelfRep record
        else .Repair record q.pilotName q.currentShipLevel := by
    intro q
    rw [dispatch_eq_spec, Spec.dispatch, if_neg (not_not.mpr hlen), hign,
      if_neg Bool.false_ne_true, hfm]
  refine ⟨?_, ?_, ?_, ?_⟩
  · rw [firstMatch_eq] at hfm
    revert hfm
    cases startsWith (description record) "Pickup" <;> [skip; (intro h; cases h)]
    cases description record == "Added to the game" <;> [skip; (intro h; cases h)]
    cases startsWith (description record) "Selected to pilot a" <;>
      [skip; (intro h; cases h)]
    cases startsWith (description record) "Hypered to " <;> [skip; (intro h; cases h)]
    cases containsStr (description record) "attacked" <;> [skip; (intro h; cases h)]
    cases startsWith (description record) "Achieved level"
        || startsWith (description record) "Awarded cruiser" <;> [skip; (intro h; cases h)]
    cases endsWith (description record) "scrap" <;> [skip; (intro h; cases h)]
    cases containsStr (description record) "repaired" <;> [(intro h; cases h); (intro _; rfl)]
  · intro h
    rw [NewActionFromCSVRecord, hd, if_pos (by rw [h]; rfl)]
    exact ⟨rfl, rfl⟩
  · intro h
    rw [NewActionFromCSVRecord, hd, if_neg (by simpa using h)]
    exact ⟨rfl, rfl⟩
  · intro t
    rw [hd, hd]

/-- C15 at "Self repaired hull", which starts with "Self repaired" but is
longer: it goes to Repair. -/
theorem repaired_dispatch_witness :
    dispatch ⟨"Alice", "fighter", 2⟩ ["t", "s", "Alice", "Self repaired hull", "", ""]
        = .Repair ["t", "s", "Alice", "Self repaired hull", "", ""] "Alice" 2
      ∧ dispatch ⟨"Alice", "fighter", 2⟩ ["t", "s", "Alice", "Self repaired", "", ""]
        = .SelfRep ["t", "s", "Alice", "Self repaired", "", ""] :=
  ⟨((repaired_dispatch sampleConstructors ⟨"Alice", "fighter", 2⟩
      ["t", "s", "Alice", "Self repaired hull", "", ""]
      (by decide) (by decide) (by decide)).2.2.1 (by decide)).1,
   ((repaired_dispatch sampleConstructors ⟨"Alice", "fighter", 2⟩
      ["t", "s", "Alice", "Self repaired", "", ""]
      (by decide) (by decide) (by decide)).2.1 (by decide)).1⟩

/-- C16: when a record produces an action whose tag is none of Added,
SelectShip, LevelUp, the loop body leaves all three fields of the parser state
as they were and still appends the action; hence the parser state changes only
at a record that produces an action of tag Added, SelectShip or LevelUp. -/
theorem state_changes_only_by_three_tags (c : Constructors) (st : LoopState)
    (record : List String) :
    (∀ a, NewActionFromCSVRecord c st.parserState record = (some a, none) →
        a.ActionType ≠ .Added → a.ActionType ≠ .SelectShip → a.ActionType ≠ .LevelUp →
        (ParseTVSLog.step c st record).parserState = st.parserState
          ∧ (ParseTVSLog.step c st record).actions = st.actions ++ [a])
      ∧ ((ParseTVSLog.step c st record).parserState ≠ st.parserState →
          ∃ a, NewActionFromCSVRecord c st.parserState record = (some a, none)
            ∧ (a.ActionType = .Added ∨ a.ActionType = .SelectShip
                ∨ a.ActionType = .LevelUp)) := by
  have key : ∀ a, NewActionFromCSVRecord c st.parserState record = (some a, none) →
      a.ActionType ≠ .Added → a.ActionType ≠ .SelectShip → a.ActionType ≠ .LevelUp →
      (ParseTVSLog.step c st record).parserState = st.parserState
        ∧ (ParseTVSLog.step c st record).actions = st.actions ++ [a] := by
    intro a h hA hS hL
    rw [step_of_action c st record a h]
    exact ⟨updateState_of_other_tag _ a hA hS hL, rfl⟩
  refine ⟨key, ?_⟩
  intro hne
  rcases hres : NewActionFromCSVRecord c st.parserState record with ⟨oa, oe⟩
  cases oe with
  | some e =>
    rw [step_of_error c st record oa e hres] at hne
    exact absurd rfl hne
  | none =>
    cases oa with
    | none =>
      rw [step_of_ignored c st record hres] at hne
      exact absurd rfl hne
    | some a =>
      refine ⟨a, rfl, ?_⟩
      by_contra hno
      simp only [not_or] at hno
      exact hne (key a hres hno.1 hno.2.1 hno.2.2).1

/-- C16 at an attack record processed in a state with pilot, ship type and
level set. -/
theorem state_changes_only_by_three_tags_witness :
    (ParseTVSLog.step sampleConstructors ⟨⟨"Alice", "fighter", 2⟩, [.Added "Alice"], []⟩
        ["t", "s", "Alice", "X attacked Y for 10", "10", ""]).parserState
        = ⟨"Alice", "fighter", 2⟩
      ∧ (ParseTVSLog.step sampleConstructors ⟨⟨"Alice", "fighter", 2⟩, [.Added "Alice"], []⟩
        ["t", "s", "Alice", "X attacked Y for 10", "10", ""]).actions
        = [.Added "Alice",
           .Attack "Alice" "fighter" 2 ["t", "s", "Alice", "X attacked Y for 10", "10", ""]] :=
  (state_changes_only_by_three_tags sampleConstructors
    ⟨⟨"Alice", "fighter", 2⟩, [.Added "Alice"], []⟩
    ["t", "s", "Alice", "X attacked Y for 10", "10", ""]).1
    (.Attack "Alice" "fighter" 2 ["t", "s", "Alice", "X attacked Y for 10", "10", ""])
    (by decide) (by decide) (by decide) (by decide)

/-- C17: on an input without any line (the first read is at the end of the
input) `ParseTVSLog` returns an error and the nil slice; on an input that
consists of the heading line only it returns the empty, non-nil slice and no
error. -/
theorem empty_input_is_an_error (c : Constructors) :
    ((ParseTVSLog c []).actions = none
        ∧ (ParseTVSLog c []).err = some (.failedToParse .EOF))
      ∧ ∀ header : List String,
          (ParseTVSLog c [.record header]).actions = some []
            ∧ (ParseTVSLog c [.record header]).err = none :=
  ⟨⟨rfl, rfl⟩, fun _ => ⟨rfl, rfl⟩⟩

/-- C18: the five exact ignore patterns are matched by equality only: a 6-field
record whose description is one of them followed by at least one further
character, and which matches no recognized pattern, fails with the
not-implemented error instead of being ignored (no ignore pattern matches such
a description); whereas "Entered carrier bay", which extends a prefix pattern,
is ignored. -/
theorem exact_ignore_patterns_need_equality (c : Constructors) :
    (∀ (ps : parserState) (record : List String) (s suffix : String),
        record.length = 6 → s ∈ ignoredExact → suffix ≠ "" →
        description record = s ++ suffix →
        Spec.isRecognized (description record) = false →
        Spec.isIgnorable (description record) = false
          ∧ NewActionFromCSVRecord c ps record = (none, some .notImplemented))
      ∧ (∀ (ps : parserState) (f0 f1 f2 f4 f5 : String),
          NewActionFromCSVRecord c ps [f0, f1, f2, "Entered carrier bay", f4, f5]
            = (none, none)) := by
  constructor
  · intro ps record s suffix hlen hs hsuf hd hrec
    have hign : Spec.isIgnorable (description record) = false := by
      rw [hd]
      exact isIgnorable_of_exact_with_suffix s suffix hs hsuf
    refine ⟨hign, ?_⟩
    rw [NewActionFromCSVRecord, (dispatch_notImplemented_iff ps record).2 ⟨hlen, hign, hrec⟩]
    rfl
  · intro ps f0 f1 f2 f4 f5
    rfl

/-- C18 at "Exited carrier bay". -/
theorem exact_ignore_patterns_need_equality_witness :
    NewActionFromCSVRecord sampleConstructors ⟨"Alice", "fighter", 2⟩
        ["t", "s", "Alice", "Exited carrier bay", "", ""]
      = (none, some .notImplemented) :=
  ((exact_ignore_patterns_need_equality sampleConstructors).1 ⟨"Alice", "fighter", 2⟩
    ["t", "s", "Alice", "Exited carrier bay", "", ""] "Exited carrier" " bay"
    (by decide) (by decide) (by decide) (by decide) (by decide)).2

/-- C19: for two 6-field records with the same description and any two parser
states, classification takes the same branch (ignored, not-implemented error,
or the same one of the nine constructors); the other fields and the state
enter only the arguments of the constructor call. -/
theorem branch_depends_on_description_only (ps1 ps2 : parserState)
    (r1 r2 : List String) (h1 : r1.length = 6) (h2 : r2.length = 6)
    (hd : description r1 = description r2) :
    (dispatch ps1 r1).branch = (dispatch ps2 r2).branch := by
  rw [dispatch_eq_spec, dispatch_eq_spec]
  exact spec_dispatch_branch ps1 ps2 r1 r2 h1 h2 hd

/-- C19 at two attack records that differ in every other field, in two
different states. -/
theorem branch_depends_on_description_only_witness :
    (dispatch ⟨"Alice", "fighter", 2⟩ ["t1", "s1", "Alice", "X attacked Y", "10", "a"]).branch
      = (dispatch ⟨"Bob", "cruiser/carrier", 6⟩
          ["t2", "s2", "Bob", "X attacked Y", "20", "b"]).branch :=
  branch_depends_on_description_only ⟨"Alice", "fighter", 2⟩ ⟨"Bob", "cruiser/carrier", 6⟩
    ["t1", "s1", "Alice", "X attacked Y", "10", "a"]
    ["t2", "s2", "Bob", "X attacked Y", "20", "b"] (by decide) (by decide) (by decide)

end TVSLogParser
